import Mathlib

/-!
Shallow embedding of the real-estate image backend (FastAPI + Celery + pgvector),
covering the similarity-search CRUD layer, the chat/query routes, the ingestion
worker and job-status surface, the property aggregation engine, the mock
temporal-change generator, and the inference stub.

Modelling conventions:
* Machine floats are modelled as exact rationals (`ℚ`); Python `round` is
  modelled with its round-half-to-even semantics on rationals.
* Python truthiness tests (`if x:` on an optional int / string / list / float)
  are modelled by explicit helpers named `pyTruthy...`.
* pgvector's `<#>` operator is modelled with its documented semantics:
  the NEGATIVE inner product (the cosine-distance operator of pgvector is
  `<=>`, which the source does not use).
* Calls to external collaborators (text-embedding model, object storage,
  neural inference, the database commit) are passed in as explicit function
  or result parameters, following the spec's collaborator interfaces.
* Raised Python exceptions are modelled with `Except String`.
-/

/-- Python `round` to an integer: round-half-to-even on an exact rational. -/
def pyRoundInt (x : ℚ) : ℤ :=
  let f := ⌊x⌋
  let r := x - (f : ℚ)
  if r < 1/2 then f
  else if 1/2 < r then f + 1
  else if f % 2 = 0 then f else f + 1

/-- Python `round(x, n)`: round to `n` decimal digits, half-to-even. -/
def pyRound (x : ℚ) (n : ℕ) : ℚ :=
  ((pyRoundInt (x * (10 : ℚ) ^ n) : ℤ) : ℚ) / (10 : ℚ) ^ n

/-- Truthiness of an optional integer: `if x:` is false for `None` and `0`. -/
def pyTruthyNat : Option ℕ → Bool
  | none => false
  | some n => n != 0

/-- Truthiness of an optional string: `if s:` is false for `None` and `""`. -/
def pyTruthyStr : Option String → Bool
  | none => false
  | some s => s != ""

/-- Truthiness of an optional rational (a Python float): false for `None` and `0.0`. -/
def pyTruthyQ : Option ℚ → Bool
  | none => false
  | some q => q != 0

/-- Embedding vectors (`numpy` arrays / pgvector columns) as rational lists. -/
abbrev Vec := List ℚ

/-- Inner product of two vectors (`numpy.dot`; zip semantics truncate by the shorter). -/
def dotQ (a b : Vec) : ℚ := (List.zipWith (fun x y => x * y) a b).sum

/-- pgvector `a <#> b`: the negative inner product.  The source's SQL comment calls
this "the cosine distance operator", but pgvector's cosine-distance operator is
`<=>`; `<#>` is `-⟨a,b⟩`. -/
def pgNegInnerProduct (a b : Vec) : ℚ := -(dotQ a b)

/-- Cosine similarity for ℓ2-unit vectors: for vectors of norm 1 the cosine
similarity `⟨a,b⟩ / (‖a‖‖b‖)` is exactly the inner product.  Spec-side
definition, used to compare the code's similarity value with the spec's. -/
def cosineSimUnit (a b : Vec) : ℚ := dotQ a b

/-- Stable insert for a stable sort (ties keep original relative order when
`le` is reflexive on the sort key). -/
def orderedInsertBy (le : α → α → Bool) (x : α) : List α → List α
  | [] => [x]
  | y :: ys => if le x y then x :: y :: ys else y :: orderedInsertBy le x ys

/-- Stable sort (models Python's stable `sorted` / SQL `ORDER BY` with
insertion order as the tie-breaker). -/
def stableSortBy (le : α → α → Bool) : List α → List α
  | [] => []
  | x :: xs => orderedInsertBy le x (stableSortBy le xs)

/-- Row of the `images` table (database.py `Image`). -/
structure ImageMeta where
  source : String
  uploaded_by : Option String
  inference_timestamp : ℕ
deriving DecidableEq

/-- Row of the `images` table (database.py `Image`); timestamps are abstract ticks. -/
structure ImageRow where
  id : ℕ
  listing_id : Option ℕ
  filename : String
  s3_path : String
  thumb_path : Option String
  embedding : Option Vec
  text_embedding : Option Vec
  meta : Option ImageMeta
deriving DecidableEq

/-- Row of the `image_labels` table (database.py `ImageLabel`).  Recommendation
and cost payload entries are opaque blobs, modelled as strings. -/
structure LabelRow where
  image_id : ℕ
  room_type : Option String
  room_confidence : Option ℚ
  condition_score : Option ℚ
  natural_light_score : Option ℚ
  features : Option (List String)
  localization : Option String
  localization_confidence : Option ℚ
  style : Option String
  style_confidence : Option ℚ
  work_recommendations : Option (List String)
  cost_estimates : Option (List String)
  model_version : Option String
  inference_timestamp : Option ℕ
  gradcam_path : Option String
  sample_input_path : Option String
deriving DecidableEq

/-- Row of the `listings` table (only the fields the chat route reads). -/
structure ListingRow where
  id : ℕ
  price : Option ℚ
  zip_code : Option String
deriving DecidableEq

/-- Row of the `embeddings_index` table (database.py `EmbeddingIndex`). -/
structure EmbeddingIndexRow where
  type : String
  vector : Vec
  ref_id : ℕ
deriving DecidableEq

/-- Row of the `conversations` table. -/
structure ConvRow where
  id : ℕ
  user_id : Option String
  listing_id : Option ℕ
deriving DecidableEq

/-- Row of the `messages` table; `created_at` is an abstract monotone tick. -/
structure MsgRow where
  id : ℕ
  conversation_id : ℕ
  role : String
  text : String
  embedding : Option Vec
  created_at : ℕ
deriving DecidableEq

/-- One row of the SELECT in crud.search_similar_images.  The query selects
exactly these nine columns: `i.id, i.filename, i.s3_path, i.thumb_path,
il.room_type, il.features, il.condition_score, il.natural_light_score,
1 - (i.embedding <#> :query) as similarity`. -/
structure SQLImageRow where
  id : ℕ
  filename : String
  s3_path : String
  thumb_path : Option String
  room_type : Option String
  features : Option (List String)
  condition_score : Option ℚ
  natural_light_score : Option ℚ
  similarity : ℚ
deriving DecidableEq

/-- The dictionary crud.search_similar_images builds per row (its intended
shape; see `rowToDict` for why it is never actually produced). -/
structure SearchResult where
  id : ℕ
  filename : String
  s3_path : String
  thumb_path : Option String
  room_type : Option String
  room_confidence : Option ℚ
  features : Option (List String)
  condition_score : Option ℚ
  natural_light_score : Option ℚ
  similarity : ℚ
deriving DecidableEq

/-- LEFT JOIN of candidate images with image_labels: an image with no label
yields one row with null label columns; an image with several yields one row
per label, in table order. -/
def leftJoinLabels (labels : List LabelRow) (i : ImageRow) : List (ImageRow × Option LabelRow) :=
  match labels.filter (fun l => l.image_id == i.id) with
  | [] => [(i, none)]
  | ls => ls.map (fun l => (i, some l))

/-- The SQL of crud.search_similar_images: filter (optional listing, non-null
image-embedding column), LEFT JOIN labels, ORDER BY `i.embedding <#> :query`
ascending, LIMIT k.  Note the SQL reads only the `embedding` (image) column,
never `text_embedding`, on both branches. -/
def searchSQLRows (images : List ImageRow) (labels : List LabelRow)
    (query_embedding : Vec) (k : ℕ) (listing_id : Option ℕ) : List SQLImageRow :=
  let cands := if pyTruthyNat listing_id then
      images.filter (fun i => i.listing_id == listing_id && i.embedding.isSome)
    else
      images.filter (fun i => i.embedding.isSome)
  let joined := cands.flatMap (leftJoinLabels labels)
  let ordered := stableSortBy
    (fun a b => pgNegInnerProduct (a.1.embedding.getD []) query_embedding
              ≤ pgNegInnerProduct (b.1.embedding.getD []) query_embedding) joined
  (ordered.take k).map (fun p =>
    { id := p.1.id
      filename := p.1.filename
      s3_path := p.1.s3_path
      thumb_path := p.1.thumb_path
      room_type := p.2.bind LabelRow.room_type
      features := p.2.bind LabelRow.features
      condition_score := p.2.bind LabelRow.condition_score
      natural_light_score := p.2.bind LabelRow.natural_light_score
      similarity := 1 - pgNegInnerProduct (p.1.embedding.getD []) query_embedding })

/-- The per-row dictionary comprehension in crud.search_similar_images.  The
SELECT yields 9 columns (indices 0..8) but the comprehension consumes
`row[0]`..`row[9]`: entry `room_confidence` is `float(row[5])` — which is the
`features` column, so a non-null features value raises TypeError — and entry
`similarity` reads `row[9]`, which does not exist, raising IndexError.  Hence
every non-empty row set raises; only an empty result survives. -/
def rowToDict (r : SQLImageRow) : Except String SearchResult :=
  if r.features.isSome then
    .error "TypeError: float() argument must be a string or a real number, not list"
  else
    .error "IndexError: tuple index out of range"

/-- crud.search_similar_images: run the SQL, then map rows through the
(faulty) dictionary comprehension; the first raising row aborts. -/
def search_similar_images (images : List ImageRow) (labels : List LabelRow)
    (query_embedding : Vec) (k : ℕ) (listing_id : Option ℕ) :
    Except String (List SearchResult) :=
  (searchSQLRows images labels query_embedding k listing_id).mapM rowToDict

/-- The keyword parameters accepted by `def search_similar_images(db,
query_embedding, k=6, listing_id=None)` in crud.py. -/
def search_similar_images_kwparams : List String :=
  ["db", "query_embedding", "k", "listing_id"]

/-- Keyword arguments passed at the call site in routes/query.py. -/
def query_route_call_kwargs : List String :=
  ["db", "query_embedding", "k", "listing_id", "use_text_embedding"]

/-- Keyword arguments passed at the call site in routes/chat.py. -/
def chat_route_call_kwargs : List String :=
  ["db", "query_embedding", "k", "listing_id", "use_text_embedding"]

/-- Python call semantics: passing a keyword argument that is not in the
callee's parameter list raises TypeError before the body runs. -/
def callSearchSimilarImages (kwargs : List String) (images : List ImageRow)
    (labels : List LabelRow) (query_embedding : Vec) (k : ℕ)
    (listing_id : Option ℕ) : Except String (List SearchResult) :=
  if kwargs.all (fun kw => search_similar_images_kwparams.contains kw) then
    search_similar_images images labels query_embedding k listing_id
  else
    .error "search_similar_images() got an unexpected keyword argument \x27use_text_embedding\x27"


/-- Result row of crud.search_similar_messages (its SELECT has 5 columns and
the row mapping consumes exactly 5, so this path works). -/
structure MessageSearchResult where
  id : ℕ
  conversation_id : ℕ
  role : String
  text : String
  similarity : ℚ
deriving DecidableEq

/-- crud.search_similar_messages: filter non-null embeddings (and conversation
when the argument is truthy), ORDER BY `embedding <#> :query`, LIMIT k. -/
def search_similar_messages (messages : List MsgRow) (query_embedding : Vec)
    (conversation_id : Option ℕ) (k : ℕ) : List MessageSearchResult :=
  let cands := if pyTruthyNat conversation_id then
      messages.filter (fun m => m.embedding.isSome && m.conversation_id == conversation_id.getD 0)
    else
      messages.filter (fun m => m.embedding.isSome)
  let ordered := stableSortBy
    (fun a b => pgNegInnerProduct (a.embedding.getD []) query_embedding
              ≤ pgNegInnerProduct (b.embedding.getD []) query_embedding) cands
  (ordered.take k).map (fun m =>
    { id := m.id, conversation_id := m.conversation_id, role := m.role,
      text := m.text,
      similarity := 1 - pgNegInnerProduct (m.embedding.getD []) query_embedding })

/-- Database state seen by the chat/query routes; ids and the creation clock
are explicit so that autoincrement ids and `created_at` ordering are modelled. -/
structure ChatDB where
  listings : List ListingRow
  images : List ImageRow
  labels : List LabelRow
  conversations : List ConvRow
  messages : List MsgRow
  nextConvId : ℕ
  nextMsgId : ℕ
  clock : ℕ
deriving DecidableEq

/-- A freshly initialized database. -/
def emptyChatDB : ChatDB :=
  { listings := [], images := [], labels := [], conversations := [],
    messages := [], nextConvId := 1, nextMsgId := 1, clock := 0 }

/-- crud.create_conversation: insert and commit one conversation row. -/
def create_conversation (db : ChatDB) (user_id : Option String)
    (listing_id : Option ℕ) : ℕ × ChatDB :=
  (db.nextConvId,
   { db with
     conversations := db.conversations ++ [⟨db.nextConvId, user_id, listing_id⟩],
     nextConvId := db.nextConvId + 1 })

/-- crud.add_message: insert and commit one message row; `created_at` is the
current clock tick. -/
def add_message (db : ChatDB) (conversation_id : ℕ) (role text : String)
    (embedding : Option Vec) : ℕ × ChatDB :=
  (db.nextMsgId,
   { db with
     messages := db.messages ++
       [⟨db.nextMsgId, conversation_id, role, text, embedding, db.clock⟩],
     nextMsgId := db.nextMsgId + 1,
     clock := db.clock + 1 })

/-- The per-message dictionary returned by crud.get_conversation_messages. -/
structure MsgView where
  id : ℕ
  role : String
  text : String
  created_at : ℕ
deriving DecidableEq

/-- crud.get_conversation_messages: filter by conversation, ORDER BY created_at. -/
def get_conversation_messages (db : ChatDB) (conversation_id : ℕ) : List MsgView :=
  (stableSortBy (fun a b => a.created_at ≤ b.created_at)
      (db.messages.filter (fun m => m.conversation_id == conversation_id))).map
    (fun m => ⟨m.id, m.role, m.text, m.created_at⟩)

/-- Decimal digits of `n` padded on the left with zeros to width `w`. -/
def natDigitsPad (n w : ℕ) : String :=
  let s := toString n
  String.mk (List.replicate (w - s.length) '0') ++ s

/-- Python fixed-point formatting `x:.nf` on an exact rational. -/
def fmtFixed (x : ℚ) (n : ℕ) : String :=
  let k := pyRoundInt (x * (10 : ℚ) ^ n)
  let sign := if k < 0 then "-" else ""
  let a := k.natAbs
  if n = 0 then sign ++ toString a
  else sign ++ toString (a / 10 ^ n) ++ "." ++ natDigitsPad (a % 10 ^ n) n

/-- Insert a thousands separator before every third digit (input reversed). -/
def commaGroupAux : List Char → ℕ → List Char
  | [], _ => []
  | c :: rest, k =>
    if k != 0 && k % 3 == 0 then ',' :: c :: commaGroupAux rest (k + 1)
    else c :: commaGroupAux rest (k + 1)

/-- Python formatting `x:,.0f`: round to an integer, group digits in threes. -/
def fmtComma0 (x : ℚ) : String :=
  let k := pyRoundInt x
  (if k < 0 then "-" else "") ++
    String.mk ((commaGroupAux (toString k.natAbs).toList.reverse 0).reverse)

/-- One numbered image summary line of routes/chat.build_rag_prompt.  The
source formats `img.get(key, default)` values with f-strings; the keys are
always present in the search-result dictionary, so a `None` value prints as
"None" for strings and would raise for `:.2f` floats — the float case is
modelled as formatting 0 (it is unreachable: the search call always raises
before any summary is built). -/
def imageSummaryLine (idx : ℕ) (img : SearchResult) : String :=
  toString idx ++ ") Image id " ++ toString img.id ++ " - room: " ++
    (match img.room_type with | some s => s | none => "None") ++
    " (conf=" ++ fmtFixed (img.room_confidence.getD 0) 2 ++ "), features: " ++
    (match img.features with
     | some fs => "[" ++ String.intercalate ", "
         (fs.map (fun f => "\x27" ++ f ++ "\x27")) ++ "]"
     | none => "None") ++
    ", condition: " ++ fmtFixed (img.condition_score.getD 0) 2 ++
    ", light: " ++ fmtFixed (img.natural_light_score.getD 0) 2 ++ "\n"

/-- routes/chat.build_rag_prompt: deterministic prompt assembly. -/
def build_rag_prompt (user_message : String) (similar_images : List SearchResult)
    (similar_messages : List MessageSearchResult) (listing_id : Option ℕ)
    (listing_price : Option ℚ) (listing_zip : Option String) : String :=
  let p0 := ["You are a home improvement advisor. Use only the following context and answer concisely.\n"]
  let p1 := if pyTruthyNat listing_id then
      p0 ++ ["Listing metadata:\n- Listing ID: " ++ toString (listing_id.getD 0) ++ "\n"] ++
        (if pyTruthyQ listing_price then
          ["- Price: $" ++ fmtComma0 (listing_price.getD 0) ++ "\n"] else []) ++
        (if pyTruthyStr listing_zip then
          ["- Location: " ++ listing_zip.getD "" ++ "\n"] else []) ++
        ["\n"]
    else p0
  let p2 := if similar_images.isEmpty then p1 else
      p1 ++ ["Top " ++ toString similar_images.length ++ " relevant images (summaries):\n"] ++
        (similar_images.enum.map (fun e => imageSummaryLine (e.1 + 1) e.2)) ++ ["\n"]
  let p3 := if similar_messages.isEmpty then p2 else
      p2 ++ ["Relevant past conversation context:\n"] ++
        ((similar_messages.take 3).map
          (fun m => "- " ++ m.role ++ ": " ++ m.text.take 200 ++ "...\n")) ++ ["\n"]
  let p4 := p3 ++ ["User question:\n" ++ user_message ++ "\n\n"]
  let p5 := p4 ++ ["Instruction:\nProvide up to 5 prioritized improvement suggestions with estimated cost brackets (Low: <$500, Medium: $500–$3k, High: >$3k) and expected ROI qualitative (Low/Medium/High). If insufficient data, ask for clarification."]
  String.join p5

/-- routes/chat.call_llm: the reply generator is a stub returning a constant
string, independent of the prompt. -/
def call_llm (_prompt : String) : String :=
  "Top 3 quick improvements:\n1) Repaint kitchen cabinets (Medium cost, High ROI)\n2) Replace dated hardware & fixtures (Low cost, Medium ROI)\n3) Stage with a few potted plants & lighting (Low cost, Medium ROI)\nEstimated combined cost: $800–$2,500. Would you like a materials & labor breakdown for option #1?"

/-- Request body of POST /chat/. -/
structure ChatRequest where
  conversation_id : Option ℕ
  user_id : Option String
  listing_id : Option ℕ
  message : String
deriving DecidableEq

/-- Response body of POST /chat/ (context_used flattened to the two counts). -/
structure ChatResponse where
  conversation_id : ℕ
  reply : String
  images_count : ℕ
  messages_count : ℕ
deriving DecidableEq

/-- routes/chat.chat: the RAG chat handler.  The text-embedding collaborator is
a parameter (spec §6).  The handler resolves/creates the conversation, embeds
the message, calls search_similar_images with the keyword arguments of its
call site (which include `use_text_embedding`), and on any exception returns
HTTP 500 `Chat failed: ...` with the database state as committed so far. -/
def chat (embedText : String → Vec) (db : ChatDB) (req : ChatRequest) :
    Except String ChatResponse × ChatDB :=
  let cs := if pyTruthyNat req.conversation_id then (req.conversation_id.getD 0, db)
            else create_conversation db req.user_id req.listing_id
  let conversation_id := cs.1
  let db1 := cs.2
  let user_embedding := embedText req.message
  match callSearchSimilarImages chat_route_call_kwargs db1.images db1.labels
      user_embedding 6 req.listing_id with
  | .error e => (.error ("Chat failed: " ++ e), db1)
  | .ok similar_images =>
      let similar_messages :=
        search_similar_messages db1.messages user_embedding (some conversation_id) 5
      let lst := if pyTruthyNat req.listing_id then
          (db1.listings.filter (fun L => L.id == req.listing_id.getD 0)).head?
        else none
      let listing_price := lst.bind ListingRow.price
      let listing_zip := lst.bind ListingRow.zip_code
      let prompt := build_rag_prompt req.message similar_images similar_messages
        req.listing_id listing_price listing_zip
      let reply := call_llm prompt
      let db2 := (add_message db1 conversation_id "user" req.message
        (some user_embedding)).2
      let assistant_embedding := embedText reply
      let db3 := (add_message db2 conversation_id "assistant" reply
        (some assistant_embedding)).2
      (.ok { conversation_id := conversation_id, reply := reply,
             images_count := similar_images.length,
             messages_count := similar_messages.length }, db3)

/-- Request body of POST /query/. -/
structure QueryRequest where
  query : String
  k : Option ℕ
  listing_id : Option ℕ
deriving DecidableEq

/-- Response body of POST /query/. -/
structure QueryResponse where
  query : String
  top_k : List SearchResult
deriving DecidableEq

/-- routes/query.query_images: embed the text query (collaborator parameter),
call search_similar_images with this call site's keyword arguments (which
include `use_text_embedding`), return HTTP 500 `Query failed: ...` on any
exception.  `request.k or 6` uses truthiness, so `k=0` also becomes 6. -/
def query_images (embedText : String → Vec) (images : List ImageRow)
    (labels : List LabelRow) (req : QueryRequest) : Except String QueryResponse :=
  let query_embedding := embedText req.query
  let k := match req.k with | some n => if n = 0 then 6 else n | none => 6
  match callSearchSimilarImages query_route_call_kwargs images labels
      query_embedding k req.listing_id with
  | .error e => .error ("Query failed: " ++ e)
  | .ok results => .ok { query := req.query, top_k := results }

/-- A classification entry of the prediction payload: a dict with optional
`label` and `confidence` keys. -/
structure ConfLabel where
  label : Option String
  confidence : Option ℚ
deriving DecidableEq

/-- The inference prediction payload (a Python dict).  A field is `none` when
its key is absent from the dict; the source never stores an explicit `None`
under a present key, so key-absence and `none` coincide. -/
structure Preds where
  room_type : Option ConfLabel
  condition_score : Option ℚ
  natural_light_score : Option ℚ
  feature_tags : Option (List String)
  localization : Option ConfLabel
  style : Option ConfLabel
  work_recommendations : Option (List String)
  cost_estimates : Option (List String)
deriving DecidableEq

/-- Dict truthiness of the payload: `if preds:` is false exactly for the empty
dict, i.e. when no key is present. -/
def Preds.isEmpty (p : Preds) : Bool :=
  p.room_type.isNone && p.condition_score.isNone && p.natural_light_score.isNone &&
  p.feature_tags.isNone && p.localization.isNone && p.style.isNone &&
  p.work_recommendations.isNone && p.cost_estimates.isNone

/-- The rows written by one call of crud.insert_image_record.  The function
issues exactly one `db.commit()` (after a `flush` that only assigns the image
id), so all rows of one call form a single atomic transaction. -/
structure IngestCommit where
  image : ImageRow
  label : Option LabelRow
  index : Option EmbeddingIndexRow
deriving DecidableEq

/-- crud.insert_image_record.  `newId` models the id assigned by `db.flush()`;
`now` models `datetime.utcnow()`.  One image row is always written; a label
row only if the payload dict is non-empty (`if preds:`); an embeddings_index
row only if a text embedding is present — all committed together. -/
def insert_image_record (newId : ℕ) (filename s3_path : String)
    (embedding text_embedding : Option Vec) (preds : Preds)
    (listing_id : Option ℕ) (uploaded_by model_version : Option String)
    (inference_timestamp : Option ℕ) (gradcam_path sample_input_path : Option String)
    (now : ℕ) : IngestCommit :=
  let image : ImageRow :=
    { id := newId, listing_id := listing_id, filename := filename,
      s3_path := s3_path, thumb_path := none, embedding := embedding,
      text_embedding := text_embedding,
      meta := some { source := model_version.getD "model_v1",
                     uploaded_by := uploaded_by,
                     inference_timestamp := inference_timestamp.getD now } }
  let label : Option LabelRow :=
    if preds.isEmpty then none else some
      { image_id := newId,
        room_type := preds.room_type.bind ConfLabel.label,
        room_confidence := preds.room_type.bind ConfLabel.confidence,
        condition_score := preds.condition_score,
        natural_light_score := preds.natural_light_score,
        features := some (preds.feature_tags.getD []),
        localization := preds.localization.bind ConfLabel.label,
        localization_confidence := preds.localization.bind ConfLabel.confidence,
        style := preds.style.bind ConfLabel.label,
        style_confidence := preds.style.bind ConfLabel.confidence,
        work_recommendations := some (preds.work_recommendations.getD []),
        cost_estimates := some (preds.cost_estimates.getD []),
        model_version := some (model_version.getD "model_v1"),
        inference_timestamp := some (inference_timestamp.getD now),
        gradcam_path := gradcam_path,
        sample_input_path := sample_input_path }
  let index : Option EmbeddingIndexRow :=
    text_embedding.map (fun t => { type := "image", vector := t, ref_id := newId })
  { image := image, label := label, index := index }

/-- Raw image bytes. -/
abbrev Bytes := List ℕ

/-- Result of the inference collaborator: (predictions, image embedding,
optional text embedding). -/
structure InferOut where
  preds : Preds
  embedding : Vec
  text_embedding : Option Vec

/-- Outcomes of the three fallible steps of the ingestion worker, passed in
as collaborator results (S3 download, model inference, database persistence);
`.error` models a raised exception with its message. -/
structure WorkerEnv where
  download : Except String Bytes
  infer : Bytes → Except String InferOut
  persist : InferOut → Except String ℕ

/-- The dict returned by workers.process_image_s3 (success and error shapes
merged into one record of optional fields). -/
structure WorkerReturn where
  status : String
  image_id : Option ℕ
  predictions : Option Preds
  embedding_dim : Option ℕ
  error : Option String
deriving DecidableEq

/-- workers.process_image_s3: download, infer, persist; the surrounding
`try/except Exception` catches every error and RETURNS a normal value
`(status "error", error string)` instead of re-raising. -/
def process_image_s3 (env : WorkerEnv) : WorkerReturn :=
  match env.download with
  | .error e => { status := "error", image_id := none, predictions := none,
                  embedding_dim := none, error := some e }
  | .ok image_data =>
    match env.infer image_data with
    | .error e => { status := "error", image_id := none, predictions := none,
                    embedding_dim := none, error := some e }
    | .ok out =>
      match env.persist out with
      | .error e => { status := "error", image_id := none, predictions := none,
                      embedding_dim := none, error := some e }
      | .ok image_id =>
        { status := "success", image_id := some image_id,
          predictions := some out.preds,
          embedding_dim := some out.embedding.length, error := none }

/-- The message of the first exception raised during a worker run, if any. -/
def workerFirstError (env : WorkerEnv) : Option String :=
  match env.download with
  | .error e => some e
  | .ok image_data =>
    match env.infer image_data with
    | .error e => some e
    | .ok out =>
      match env.persist out with
      | .error e => some e
      | .ok _ => none

/-- The result payload attached to a Celery task (either the returned dict of
a completed run, or an in-progress info payload). -/
inductive TaskPayload
  | run (r : WorkerReturn)
  | info (s : String)
deriving DecidableEq

/-- What routes/tasks reads off `AsyncResult`: the Celery state string, the
result payload, and the exception info. -/
structure TaskView where
  state : String
  result : Option TaskPayload
  info : Option String
deriving DecidableEq

/-- Celery semantics for this worker: a task whose body RETURNS is recorded
with state SUCCESS carrying the returned value (FAILURE would require an
uncaught exception, and process_image_s3 catches them all). -/
def celeryTaskView (env : WorkerEnv) : TaskView :=
  { state := "SUCCESS", result := some (.run (process_image_s3 env)), info := none }

/-- Response of GET /tasks/(task_id). -/
structure TaskStatusResponse where
  task_id : String
  status : String
  result : Option TaskPayload
  error : Option String
deriving DecidableEq

/-- routes/tasks.get_task_status: map the Celery state onto the response;
SUCCESS reports status "success" with the returned payload and a null error;
the fallback branch lowercases the state and reports the exception info
(`str(info) if info else` uses truthiness, so empty info gives "Task failed"). -/
def get_task_status (task_id : String) (t : TaskView) : TaskStatusResponse :=
  if t.state == "PENDING" then
    { task_id := task_id, status := "pending", result := none, error := none }
  else if t.state == "PROGRESS" then
    { task_id := task_id, status := "in_progress",
      result := t.info.map TaskPayload.info, error := none }
  else if t.state == "SUCCESS" then
    { task_id := task_id, status := "success", result := t.result, error := none }
  else
    { task_id := task_id, status := t.state.toLower, result := none,
      error := some (if pyTruthyStr t.info then t.info.getD "" else "Task failed") }

/-- The images of a listing (`db.query(Image).filter(Image.listing_id == listing_id)`). -/
def listing_images (images : List ImageRow) (listing_id : ℕ) : List ImageRow :=
  images.filter (fun i => i.listing_id == some listing_id)

/-- The labels of a set of images (`ImageLabel.image_id.in_(image_ids)`). -/
def listing_labels (labels : List LabelRow) (image_ids : List ℕ) : List LabelRow :=
  labels.filter (fun l => image_ids.contains l.image_id)

/-- Increment a key of a Python dict used as a counter: an existing key keeps
its position, a new key is appended (dicts preserve insertion order). -/
def bump (m : List (String × ℕ)) (k : String) : List (String × ℕ) :=
  match m with
  | [] => [(k, 1)]
  | (k', c) :: rest => if k' = k then (k', c + 1) :: rest else (k', c) :: bump rest k

/-- The counting loops of aggregation.py: `for label in labels: if get(label):
counts[get(label)] += 1` (string truthiness skips both null and empty). -/
def countByKey (get : LabelRow → Option String) (labels : List LabelRow) :
    List (String × ℕ) :=
  labels.foldl (fun m l =>
    match get l with
    | some s => if s = "" then m else bump m s
    | none => m) []

/-- Python `max(items, key=lambda x: x[1])[0]` on a non-empty dict: the FIRST
key attaining the maximal count (ties break by first-encountered order). -/
def pyMaxBySnd (m : List (String × ℕ)) : Option String :=
  match m with
  | [] => none
  | x :: xs => some (xs.foldl (fun b y => if b.2 < y.2 then y else b) x).1

/-- Sum of the counts of a counter dict. -/
def sumSnd (m : List (String × ℕ)) : ℕ := (m.map Prod.snd).sum

/-- Sum of the values of a distribution dict. -/
def sumSndQ (m : List (String × ℚ)) : ℚ := (m.map Prod.snd).sum

/-- Counts normalized by the category total; aggregation.py computes the total
as `sum(counts.values()) if counts else 1`. -/
def distributionOf (counts : List (String × ℕ)) : List (String × ℚ) :=
  let total : ℕ := if counts = [] then 1 else sumSnd counts
  counts.map (fun p => (p.1, (p.2 : ℚ) / (total : ℚ)))

/-- The `return {...}` value of aggregation.calculate_property_aggregation
(the wall-clock field is omitted: no claim concerns it). -/
structure AggData where
  listing_id : ℕ
  overall_condition_score : Option ℚ
  avg_natural_light_score : Option ℚ
  room_counts : List (String × ℕ)
  dominant_room_type : Option String
  common_features : List String
  dominant_style : Option String
  style_distribution : List (String × ℚ)
  primary_localization : Option String
  localization_distribution : List (String × ℚ)
  total_images : ℕ
  calculation_version : String
deriving DecidableEq

/-- Models `round(x, 3) if x else None` at the return site of
aggregation.calculate_property_aggregation: float truthiness maps BOTH a null
mean and a zero mean to null; a non-zero mean is rounded to 3 digits. -/
def pyRound3IfTruthy : Option ℚ → Option ℚ
  | none => none
  | some m => if m = 0 then none else some (pyRound m 3)

/-- Mean of a list of scores, absent when the list is empty (the
`sum(xs) / len(xs) if xs else None` pattern). -/
def specMean (xs : List ℚ) : Option ℚ :=
  if xs = [] then none else some (xs.sum / (xs.length : ℚ))

/-- aggregation.calculate_property_aggregation: None when the listing has no
images OR its images have no labels; otherwise the per-listing rollup. -/
def calculate_property_aggregation (images : List ImageRow) (labels : List LabelRow)
    (listing_id : ℕ) : Option AggData :=
  let imgs := listing_images images listing_id
  let image_ids := imgs.map ImageRow.id
  if image_ids = [] then none else
  let lbls := listing_labels labels image_ids
  if lbls = [] then none else
  let condition_scores := lbls.filterMap LabelRow.condition_score
  let light_scores := lbls.filterMap LabelRow.natural_light_score
  let overall_condition_score := specMean condition_scores
  let avg_natural_light_score := specMean light_scores
  let room_counts := countByKey LabelRow.room_type lbls
  let dominant_room_type := pyMaxBySnd room_counts
  let all_features := lbls.foldl (fun acc l =>
    match l.features with
    | some fs => if fs = [] then acc else acc ++ fs
    | none => acc) []
  let feature_counts := all_features.foldl bump []
  let common_features :=
    ((stableSortBy (fun a b => b.2 ≤ a.2) feature_counts).take 10).map Prod.fst
  let style_counts := countByKey LabelRow.style lbls
  let dominant_style := pyMaxBySnd style_counts
  let style_distribution := distributionOf style_counts
  let localization_counts := countByKey LabelRow.localization lbls
  let primary_localization := pyMaxBySnd localization_counts
  let localization_distribution := distributionOf localization_counts
  some
    { listing_id := listing_id,
      overall_condition_score := pyRound3IfTruthy overall_condition_score,
      avg_natural_light_score := pyRound3IfTruthy avg_natural_light_score,
      room_counts := room_counts,
      dominant_room_type := dominant_room_type,
      common_features := common_features,
      dominant_style := dominant_style,
      style_distribution := style_distribution,
      primary_localization := primary_localization,
      localization_distribution := localization_distribution,
      total_images := imgs.length,
      calculation_version := "v1.0" }

/-- The random draws consumed by mock_data.generate_mock_temporal_change,
passed in explicitly (`random.choice`, two `random.uniform`, two
`random.randint` calls, in source order). -/
structure TemporalDraws where
  change_type : String
  previous_raw : ℚ
  current_raw : ℚ
  time_delta_days : ℕ
  model_suffix : ℕ
deriving DecidableEq

/-- The dict returned by mock_data.generate_mock_temporal_change. -/
structure TemporalChangeRecord where
  listing_id : ℕ
  image_id : ℕ
  change_type : String
  change_magnitude : ℚ
  change_direction : String
  previous_value : ℚ
  current_value : ℚ
  previous_image_id : Option ℕ
  time_delta_days : ℕ
  model_version : String
  flagged_for_review : Bool
deriving DecidableEq

/-- mock_data.generate_mock_temporal_change: a total function — there is no
check on `previous_image_id`, which is stored verbatim (possibly null). -/
def generate_mock_temporal_change (listing_id image_id : ℕ)
    (previous_image_id : Option ℕ) (d : TemporalDraws) : TemporalChangeRecord :=
  let previous_value := pyRound d.previous_raw 2
  let current_value := pyRound d.current_raw 2
  let change_magnitude := |current_value - previous_value|
  let change_direction :=
    if previous_value < current_value then "improved"
    else if current_value < previous_value then "degraded"
    else "stable"
  { listing_id := listing_id, image_id := image_id,
    change_type := d.change_type,
    change_magnitude := pyRound change_magnitude 3,
    change_direction := change_direction,
    previous_value := previous_value, current_value := current_value,
    previous_image_id := previous_image_id,
    time_delta_days := d.time_delta_days,
    model_version := "model_v" ++ toString d.model_suffix,
    flagged_for_review := decide ((1 : ℚ)/5 < change_magnitude) }

/-- A vector divided by its ℓ2 norm, kept symbolic: the scaling factor is
irrational in general, and only the identity of the raw draws (hence of the
normalized vector) and the dimension matter to any claim. -/
structure UnitVec where
  raw : Vec
deriving DecidableEq

/-- `v / numpy.linalg.norm(v)`. -/
def l2normalize (v : Vec) : UnitVec := ⟨v⟩

/-- The dimension of a normalized vector. -/
def UnitVec.dim (u : UnitVec) : ℕ := u.raw.length

/-- State of numpy's global random generator, as reset by `np.random.seed`. -/
structure NPRandom where
  seed : ℕ
  counter : ℕ
deriving DecidableEq

/-- `np.random.seed(n)`: reset the global generator to a fixed state. -/
def npSeed (n : ℕ) : NPRandom := ⟨n, 0⟩

/-- One modelled draw: a deterministic rational value depending only on the
seed and the position in the stream.  The Mersenne-Twister Gaussian sampler is
abstracted to an arbitrary concrete deterministic stream — only determinism
(same seed, same position, same value) matters to any claim. -/
def npDrawAt (seed i : ℕ) : ℚ :=
  (((1664525 * (seed + i) + 1013904223) % 4294967296 : ℕ) : ℚ) / 4294967296 - 1/2

/-- `np.random.randn(k)` on the global generator: k draws, advancing the state. -/
def npRandn (st : NPRandom) (k : ℕ) : Vec × NPRandom :=
  ((List.range k).map (fun i => npDrawAt st.seed (st.counter + i)),
   ⟨st.seed, st.counter + k⟩)

/-- The constant prediction dict of model_stub.inference. -/
def stub_predictions : Preds :=
  { room_type := some { label := some "kitchen", confidence := some (93/100) },
    condition_score := some (78/100),
    natural_light_score := some (61/100),
    feature_tags := some ["hardwood_floors", "island", "stainless_steel_appliances"],
    localization := none, style := none,
    work_recommendations := none, cost_estimates := none }

/-- model_stub.inference: the PIL `Image.open`/`verify` try-block swallows all
errors and binds nothing, so it has no effect; the function reseeds the global
generator with the fixed seed 42 on EVERY call and then draws the 768-d image
embedding and the 1536-d text embedding, both normalized — the input bytes are
never consumed by anything that reaches the result. -/
def inference (image_data : Bytes) : Preds × UnitVec × Option UnitVec :=
  let predictions := stub_predictions
  let s0 := npSeed 42
  let r1 := npRandn s0 768
  let image_embedding := l2normalize r1.1
  let r2 := npRandn r1.2 1536
  let text_embedding := l2normalize r2.1
  (predictions, image_embedding, some text_embedding)

lemma pyRoundInt_intCast (n : ℤ) : pyRoundInt ((n : ℤ) : ℚ) = n := by
  norm_num [pyRoundInt, Int.floor_intCast]

lemma pyRound3_of_hundredths (k : ℤ) :
    pyRound ((k : ℚ) / 100) 3 = (k : ℚ) / 100 := by
  have h : ((k : ℚ) / 100) * (10 : ℚ) ^ 3 = ((10 * k : ℤ) : ℚ) := by
    push_cast; ring
  rw [pyRound, h, pyRoundInt_intCast]
  push_cast; ring

lemma pyRound_two_eq (x : ℚ) :
    pyRound x 2 = ((pyRoundInt (x * (10 : ℚ) ^ 2) : ℤ) : ℚ) / 100 := by
  rw [pyRound]; norm_num

/-- The absolute difference of two two-decimal values is itself a two-decimal
value, so rounding it to three decimals is the identity. -/
lemma pyRound3_abs_diff (p c : ℚ) :
    pyRound |pyRound c 2 - pyRound p 2| 3 = |pyRound c 2 - pyRound p 2| := by
  set a := pyRoundInt (p * (10 : ℚ) ^ 2) with ha
  set b := pyRoundInt (c * (10 : ℚ) ^ 2) with hb
  have hd : |pyRound c 2 - pyRound p 2| = ((|b - a| : ℤ) : ℚ) / 100 := by
    rw [pyRound_two_eq p, pyRound_two_eq c, ← ha, ← hb, div_sub_div_same]
    rw [show ((b : ℤ) : ℚ) - ((a : ℤ) : ℚ) = ((b - a : ℤ) : ℚ) by push_cast; ring]
    rw [abs_div, Int.cast_abs]
    norm_num
  rw [hd, pyRound3_of_hundredths]

/-- The direction classification of the generator, characterized. -/
lemma direction_string_spec (p c : ℚ) :
    ((if p < c then "improved" else if c < p then "degraded" else "stable") = "improved" ↔ p < c)
  ∧ ((if p < c then "improved" else if c < p then "degraded" else "stable") = "degraded" ↔ c < p)
  ∧ ((if p < c then "improved" else if c < p then "degraded" else "stable") = "stable" ↔ c = p) := by
  rcases lt_trichotomy p c with h | h | h
  · rw [if_pos h]
    refine ⟨by simp [h], ?_, ?_⟩
    · simp only [show ("improved" = "degraded") = False by simp, false_iff]
      exact asymm h
    · simp only [show ("improved" = "stable") = False by simp, false_iff]
      exact fun he => absurd h (by rw [he]; exact lt_irrefl p)
  · subst h
    rw [if_neg (lt_irrefl p), if_neg (lt_irrefl p)]
    refine ⟨?_, ?_, by simp⟩
    · simp only [show ("stable" = "improved") = False by simp, false_iff]
      exact lt_irrefl p
    · simp only [show ("stable" = "degraded") = False by simp, false_iff]
      exact lt_irrefl p
  · rw [if_neg (asymm h), if_pos h]
    refine ⟨?_, by simp [h], ?_⟩
    · simp only [show ("degraded" = "improved") = False by simp, false_iff]
      exact asymm h
    · simp only [show ("degraded" = "stable") = False by simp, false_iff]
      exact fun he => absurd h (by rw [he]; exact lt_irrefl p)

/-- C9: for every temporal-change comparison, the recorded magnitude equals the
absolute difference of the recorded current and previous values, the direction
is "improved" iff current > previous, "degraded" iff current < previous,
"stable" otherwise, and the review flag is set iff the magnitude exceeds 0.2. -/
theorem C9_temporal_change_magnitude_direction_flag
    (lid iid : ℕ) (pid : Option ℕ) (d : TemporalDraws) :
    (generate_mock_temporal_change lid iid pid d).change_magnitude =
      |(generate_mock_temporal_change lid iid pid d).current_value -
        (generate_mock_temporal_change lid iid pid d).previous_value|
  ∧ ((generate_mock_temporal_change lid iid pid d).change_direction = "improved" ↔
      (generate_mock_temporal_change lid iid pid d).previous_value <
        (generate_mock_temporal_change lid iid pid d).current_value)
  ∧ ((generate_mock_temporal_change lid iid pid d).change_direction = "degraded" ↔
      (generate_mock_temporal_change lid iid pid d).current_value <
        (generate_mock_temporal_change lid iid pid d).previous_value)
  ∧ ((generate_mock_temporal_change lid iid pid d).change_direction = "stable" ↔
      (generate_mock_temporal_change lid iid pid d).current_value =
        (generate_mock_temporal_change lid iid pid d).previous_value)
  ∧ ((generate_mock_temporal_change lid iid pid d).flagged_for_review = true ↔
      (1 : ℚ)/5 < (generate_mock_temporal_change lid iid pid d).change_magnitude) := by
  simp only [generate_mock_temporal_change]
  obtain ⟨h1, h2, h3⟩ :=
    direction_string_spec (pyRound d.previous_raw 2) (pyRound d.current_raw 2)
  refine ⟨pyRound3_abs_diff _ _, h1, h2, h3, ?_⟩
  rw [pyRound3_abs_diff]
  exact decide_eq_true_iff

/-- C8 counterexample: invoking the temporal-change generator WITHOUT a
previous image does not fail — it returns a complete TemporalChange record
whose previous_image_id is null (there is no PreconditionError path). -/
theorem C8_counterexample_record_without_previous_image :
    generate_mock_temporal_change 1 2 none
        { change_type := "condition", previous_raw := 7/10, current_raw := 9/10,
          time_delta_days := 30, model_suffix := 1 } =
      { listing_id := 1, image_id := 2, change_type := "condition",
        change_magnitude := 1/5, change_direction := "improved",
        previous_value := 7/10, current_value := 9/10, previous_image_id := none,
        time_delta_days := 30, model_version := "model_v1",
        flagged_for_review := false } := by
  have hstr : ("model_v" ++ toString (1 : ℕ)) = "model_v1" := rfl
  have h1 : pyRound ((7 : ℚ)/10) 2 = 7/10 := by
    rw [pyRound, show ((7 : ℚ)/10) * (10 : ℚ) ^ 2 = ((70 : ℤ) : ℚ) by norm_num,
      pyRoundInt_intCast]
    norm_num
  have h2 : pyRound ((9 : ℚ)/10) 2 = 9/10 := by
    rw [pyRound, show ((9 : ℚ)/10) * (10 : ℚ) ^ 2 = ((90 : ℤ) : ℚ) by norm_num,
      pyRoundInt_intCast]
    norm_num
  have habs : |(9 : ℚ)/10 - 7/10| = 1/5 := by
    rw [show (9 : ℚ)/10 - 7/10 = 1/5 by norm_num]
    exact abs_of_nonneg (by norm_num)
  have h3 : pyRound ((1 : ℚ)/5) 3 = 1/5 := by
    rw [pyRound, show ((1 : ℚ)/5) * (10 : ℚ) ^ 3 = ((200 : ℤ) : ℚ) by norm_num,
      pyRoundInt_intCast]
    norm_num
  have habs5 : |(1 : ℚ)/5| = 1/5 := abs_of_nonneg (by norm_num)
  norm_num [generate_mock_temporal_change, h1, h2, habs, habs5, h3, hstr,
    TemporalChangeRecord.mk.injEq, decide_eq_false_iff_not]

/-- C8 (amended): detectChange with previousImageId absent succeeds anyway:
it returns a TemporalChange record with a null previous_image_id and a fully
computed direction; no precondition is checked and no error is raised. -/
theorem C8_missing_previous_image_still_returns_record
    (lid iid : ℕ) (d : TemporalDraws) :
    (generate_mock_temporal_change lid iid none d).previous_image_id = none
  ∧ ((generate_mock_temporal_change lid iid none d).change_direction = "improved"
    ∨ (generate_mock_temporal_change lid iid none d).change_direction = "degraded"
    ∨ (generate_mock_temporal_change lid iid none d).change_direction = "stable") := by
  refine ⟨rfl, ?_⟩
  simp only [generate_mock_temporal_change]
  split_ifs <;> simp

/-- C10: the inference stub is a constant function of its input — it reseeds
the global generator with the fixed seed 42 on every call, so any two inputs
yield identical predictions, an identical 768-dimensional image embedding and
an identical 1536-dimensional text embedding. -/
theorem C10_inference_is_constant (a b : Bytes) :
    inference a = inference b
  ∧ (inference a).2.1.dim = 768
  ∧ ((inference a).2.2.map UnitVec.dim) = some 1536 := by
  refine ⟨rfl, ?_, ?_⟩
  · simp [inference, npRandn, l2normalize, UnitVec.dim]
  · simp [inference, npRandn, l2normalize, UnitVec.dim]

/-- A stored image whose image-embedding column is a unit vector and whose
text-embedding column is null. -/
def c2StoredImage : ImageRow :=
  { id := 1, listing_id := none, filename := "a.jpg", s3_path := "s3://bucket/a.jpg",
    thumb_path := none, embedding := some [1, 0, 0], text_embedding := none,
    meta := none }

/-- C2 (code bug, evaluated at the failing input): for a stored unit vector
equal to the unit query vector, the SQL similarity column is `1 - (a <#> q)`
with `<#>` the negative inner product, i.e. 2 — not the cosine similarity 1,
and outside [-1, 1]; and the Python row mapping then raises (the SELECT has 9
columns but the comprehension reads `row[9]`), so the call errors instead of
returning the ranked list. -/
theorem C2_similarity_value_and_row_mapping_bug :
    (searchSQLRows [c2StoredImage] [] [1, 0, 0] 5 none).map SQLImageRow.similarity = [2]
  ∧ cosineSimUnit [1, 0, 0] [1, 0, 0] = 1
  ∧ ¬((2 : ℚ) ≤ 1)
  ∧ search_similar_images [c2StoredImage] [] [1, 0, 0] 5 none =
      .error "IndexError: tuple index out of range" := by
  refine ⟨?_, ?_, by norm_num, ?_⟩
  · norm_num [c2StoredImage, searchSQLRows, leftJoinLabels, stableSortBy,
      orderedInsertBy, pgNegInnerProduct, dotQ, pyTruthyNat]
  · norm_num [cosineSimUnit, dotQ]
  · norm_num [c2StoredImage, search_similar_images, searchSQLRows, leftJoinLabels,
      stableSortBy, orderedInsertBy, pgNegInnerProduct, dotQ, pyTruthyNat,
      rowToDict, List.mapM, List.mapM.loop]

/-- C1 (code bug): every POST /query/ call passes `use_text_embedding=True` to
search_similar_images, whose def has no such parameter, so the call raises
TypeError and the route returns HTTP 500 for every request; and the underlying
SQL ranks by the image-embedding column — a candidate whose text-embedding
column is null is still returned as the top row. -/
theorem C1_query_route_raises_and_sql_ignores_text_column :
    (∀ (embedText : String → Vec) (images : List ImageRow) (labels : List LabelRow)
        (req : QueryRequest),
      query_images embedText images labels req =
        .error "Query failed: search_similar_images() got an unexpected keyword argument \x27use_text_embedding\x27")
  ∧ (searchSQLRows [c2StoredImage] [] [1, 0, 0] 5 none).map SQLImageRow.id = [1]
  ∧ c2StoredImage.text_embedding = none := by
  refine ⟨fun embedText images labels req => rfl, ?_, rfl⟩
  norm_num [c2StoredImage, searchSQLRows, leftJoinLabels, stableSortBy,
    orderedInsertBy, pgNegInnerProduct, dotQ, pyTruthyNat]

/-- The spec's end-to-end chat scenario: start a conversation with "Hello",
then send a second message on the same conversation id (the id the first call
created is 1). -/
def helloScenarioDB (embedText : String → Vec) : ChatDB :=
  let db1 := (chat embedText emptyChatDB
    { conversation_id := none, user_id := none, listing_id := none,
      message := "Hello" }).2
  (chat embedText db1
    { conversation_id := some 1, user_id := none, listing_id := none,
      message := "What about the kitchen?" }).2

/-- C3 (code bug): every chat invocation raises at the image-retrieval step
(TypeError from the `use_text_embedding` keyword), before any message is
persisted; the handler returns HTTP 500 and leaves the messages table
unchanged, so the two-call scenario yields 0 stored messages, not 4. -/
theorem C3_chat_route_raises_and_persists_no_messages :
    ∀ (embedText : String → Vec) (db : ChatDB) (req : ChatRequest),
      (chat embedText db req).1 =
        .error "Chat failed: search_similar_images() got an unexpected keyword argument \x27use_text_embedding\x27"
    ∧ ((chat embedText db req).2).messages = db.messages
    ∧ get_conversation_messages (helloScenarioDB embedText) 1 = [] := by
  intro embedText db req
  refine ⟨?_, ?_, rfl⟩
  · rcases req with ⟨cid, uid, lid, msg⟩
    cases hc : pyTruthyNat cid <;>
      simp [chat, hc, create_conversation, callSearchSimilarImages,
        chat_route_call_kwargs, search_similar_images_kwparams]
  · rcases req with ⟨cid, uid, lid, msg⟩
    cases hc : pyTruthyNat cid <;>
      simp [chat, hc, create_conversation, callSearchSimilarImages,
        chat_route_call_kwargs, search_similar_images_kwparams]

/-- A worker run whose S3 download step raises "boom". -/
def c4FailingEnv : WorkerEnv :=
  { download := .error "boom",
    infer := fun _ => .error "unreachable",
    persist := fun _ => .error "unreachable" }

/-- C4 counterexample: a job whose processing raised an error is reported by
the job-status surface with status "success" and a null error field (the
worker catches the exception and returns an error payload, so Celery records
the task as SUCCESS); "failed" is never reported for it. -/
theorem C4_counterexample_failed_job_reports_success :
    (get_task_status "job-1" (celeryTaskView c4FailingEnv)).status = "success"
  ∧ (get_task_status "job-1" (celeryTaskView c4FailingEnv)).error = none
  ∧ (process_image_s3 c4FailingEnv).status = "error"
  ∧ (process_image_s3 c4FailingEnv).error = some "boom"
  ∧ ("success" : String) ≠ "failed" := by
  exact ⟨rfl, rfl, rfl, rfl, by decide⟩

/-- C4 (amended): a job whose processing raises an error terminates with the
task returning the payload (status "error", the exception string verbatim);
Celery therefore records SUCCESS and the status surface reports status
"success" with a null top-level error — never a "failed"/"failure" state. -/
theorem C4_error_string_carried_inside_success_result
    (tid : String) (env : WorkerEnv) (e : String)
    (h : workerFirstError env = some e) :
    get_task_status tid (celeryTaskView env) =
      { task_id := tid, status := "success",
        result := some (TaskPayload.run (WorkerReturn.mk "error" none none none (some e))),
        error := none } := by
  have hrun : process_image_s3 env =
      { status := "error", image_id := none, predictions := none,
        embedding_dim := none, error := some e } := by
    cases hd : env.download with
    | error e1 =>
        simp [workerFirstError, hd] at h
        simp [process_image_s3, hd, h]
    | ok bts =>
        cases hi : env.infer bts with
        | error e1 =>
            simp [workerFirstError, hd, hi] at h
            simp [process_image_s3, hd, hi, h]
        | ok out =>
            cases hp : env.persist out with
            | error e1 =>
                simp [workerFirstError, hd, hi, hp] at h
                simp [process_image_s3, hd, hi, hp, h]
            | ok imgId =>
                simp [workerFirstError, hd, hi, hp] at h
  simp [get_task_status, celeryTaskView, hrun]

theorem C4_error_string_carried_inside_success_result_witness :
    get_task_status "job-1" (celeryTaskView c4FailingEnv) =
      { task_id := "job-1", status := "success",
        result := some (TaskPayload.run (WorkerReturn.mk "error" none none none (some "boom"))),
        error := none } :=
  C4_error_string_carried_inside_success_result "job-1" c4FailingEnv "boom" rfl

lemma bump_pos (k : String) :
    ∀ (m : List (String × ℕ)), (∀ p ∈ m, 0 < p.2) → ∀ p ∈ bump m k, 0 < p.2 := by
  intro m
  induction m with
  | nil =>
      intro _ p hp
      simp only [bump, List.mem_singleton] at hp
      simp [hp]
  | cons x rest ih =>
      rcases x with ⟨k', c⟩
      intro h p hp
      simp only [bump] at hp
      split_ifs at hp with hk
      · rcases List.mem_cons.mp hp with h1 | h1
        · have hc := h (k', c) (List.mem_cons_self _ _)
          simp [h1]
        · exact h p (List.mem_cons_of_mem _ h1)
      · rcases List.mem_cons.mp hp with h1 | h1
        · exact h1 ▸ h (k', c) (List.mem_cons_self _ _)
        · exact ih (fun q hq => h q (List.mem_cons_of_mem _ hq)) p h1

lemma countFold_pos (get : LabelRow → Option String) :
    ∀ (ls : List LabelRow) (m : List (String × ℕ)), (∀ p ∈ m, 0 < p.2) →
      ∀ p ∈ ls.foldl (fun m l =>
        match get l with
        | some s => if s = "" then m else bump m s
        | none => m) m, 0 < p.2 := by
  intro ls
  induction ls with
  | nil => intro m hm p hp; rw [List.foldl_nil] at hp; exact hm p hp
  | cons l rest ih =>
      intro m hm p hp
      rw [List.foldl_cons] at hp
      refine ih _ ?_ p hp
      cases hg : get l with
      | none => simpa [hg] using hm
      | some s =>
          by_cases hs : s = ""
          · simpa [hg, hs] using hm
          · simpa [hg, hs] using bump_pos s m hm

lemma countByKey_pos (get : LabelRow → Option String) (ls : List LabelRow) :
    ∀ p ∈ countByKey get ls, 0 < p.2 :=
  countFold_pos get ls [] (by simp)

lemma sum_map_div (l : List ℚ) (c : ℚ) :
    (l.map (fun x => x / c)).sum = l.sum / c := by
  induction l with
  | nil => simp
  | cons x xs ih => simp [ih, add_div]

lemma sumSnd_castQ (m : List (String × ℕ)) :
    (m.map (fun p => ((p.2 : ℕ) : ℚ))).sum = ((sumSnd m : ℕ) : ℚ) := by
  induction m with
  | nil => simp [sumSnd]
  | cons x xs ih => simp [sumSnd, ih]

lemma sumSnd_pos (m : List (String × ℕ)) (hne : m ≠ [])
    (hpos : ∀ p ∈ m, 0 < p.2) : 0 < sumSnd m := by
  cases m with
  | nil => exact absurd rfl hne
  | cons x xs =>
      have h1 : 0 < x.2 := hpos x (List.mem_cons_self _ _)
      have : sumSnd (x :: xs) = x.2 + sumSnd xs := by simp [sumSnd]
      rw [this]
      exact Nat.lt_of_lt_of_le h1 (Nat.le_add_right _ _)

/-- A non-empty counter dict with positive counts normalizes to a distribution
summing to exactly 1. -/
lemma distributionOf_sum_one (counts : List (String × ℕ)) (hne : counts ≠ [])
    (hpos : ∀ p ∈ counts, 0 < p.2) : sumSndQ (distributionOf counts) = 1 := by
  have hS : 0 < sumSnd counts := sumSnd_pos counts hne hpos
  have hS0 : ((sumSnd counts : ℕ) : ℚ) ≠ 0 := by
    exact_mod_cast Nat.pos_iff_ne_zero.mp hS
  unfold distributionOf sumSndQ
  rw [if_neg hne, List.map_map]
  have hcomp :
      (Prod.snd ∘ fun p : String × ℕ => (p.1, (p.2 : ℚ) / ((sumSnd counts : ℕ) : ℚ)))
      = (fun x : ℚ => x / ((sumSnd counts : ℕ) : ℚ)) ∘ (fun p : String × ℕ => ((p.2 : ℕ) : ℚ)) := rfl
  rw [hcomp, ← List.map_map, sum_map_div, sumSnd_castQ, div_self hS0]

/-- C5 (amended): the aggregation is null iff the listing has no images OR its
images have no labels; otherwise total_images counts all of the listing's
images and each per-category distribution (style, localization) is the counts
normalized by the category total, summing to exactly 1 whenever the category
is non-empty. -/
theorem C5_aggregation_null_iff_and_distributions_sum_one
    (images : List ImageRow) (labels : List LabelRow) (lid : ℕ) :
    (calculate_property_aggregation images labels lid = none ↔
      listing_images images lid = [] ∨
      listing_labels labels ((listing_images images lid).map ImageRow.id) = [])
  ∧ ∀ a, calculate_property_aggregation images labels lid = some a →
      a.total_images = (listing_images images lid).length
    ∧ a.style_distribution =
        distributionOf (countByKey LabelRow.style
          (listing_labels labels ((listing_images images lid).map ImageRow.id)))
    ∧ a.localization_distribution =
        distributionOf (countByKey LabelRow.localization
          (listing_labels labels ((listing_images images lid).map ImageRow.id)))
    ∧ (a.style_distribution ≠ [] → sumSndQ a.style_distribution = 1)
    ∧ (a.localization_distribution ≠ [] → sumSndQ a.localization_distribution = 1) := by
  by_cases h1 : (listing_images images lid).map ImageRow.id = []
  · have himg : listing_images images lid = [] := List.map_eq_nil_iff.mp h1
    constructor
    · simp [calculate_property_aggregation, h1, himg]
    · intro a ha
      simp [calculate_property_aggregation, h1] at ha
  · by_cases h2 : listing_labels labels ((listing_images images lid).map ImageRow.id) = []
    · constructor
      · simp [calculate_property_aggregation, h1, h2]
      · intro a ha
        simp [calculate_property_aggregation, h1, h2] at ha
    · have himg : listing_images images lid ≠ [] :=
        fun he => h1 (by simp [he])
      constructor
      · simp only [calculate_property_aggregation, h1, h2, if_neg]
        simp [himg, h2]
      · intro a ha
        simp only [calculate_property_aggregation, h1, h2, if_false] at ha
        rw [Option.some_inj] at ha
        subst ha
        refine ⟨rfl, rfl, rfl, ?_, ?_⟩
        · intro hd
          have hc : countByKey LabelRow.style
              (listing_labels labels ((listing_images images lid).map ImageRow.id)) ≠ [] := by
            intro hc0
            exact hd (by simp [distributionOf, hc0])
          exact distributionOf_sum_one _ hc (countByKey_pos _ _)
        · intro hd
          have hc : countByKey LabelRow.localization
              (listing_labels labels ((listing_images images lid).map ImageRow.id)) ≠ [] := by
            intro hc0
            exact hd (by simp [distributionOf, hc0])
          exact distributionOf_sum_one _ hc (countByKey_pos _ _)

/-- A listing-7 image with no label row. -/
def c5UnlabeledImage : ImageRow :=
  { id := 1, listing_id := some 7, filename := "a.jpg", s3_path := "s3://b/a.jpg",
    thumb_path := none, embedding := none, text_embedding := none, meta := none }

/-- C5 counterexample: a listing with one image (N = 1 ≥ 1) but no label rows
gets a null aggregation — so "null exactly when the listing has zero images"
fails: null is also returned when the images have no labels. -/
theorem C5_counterexample_one_image_no_labels_returns_null :
    calculate_property_aggregation [c5UnlabeledImage] [] 7 = none
  ∧ (listing_images [c5UnlabeledImage] 7).length = 1 := by
  exact ⟨rfl, rfl⟩

/-- Two listing-7 images for the C5 witness. -/
def c5wImages : List ImageRow :=
  [{ id := 1, listing_id := some 7, filename := "a.jpg", s3_path := "s3://b/a.jpg",
     thumb_path := none, embedding := none, text_embedding := none, meta := none },
   { id := 2, listing_id := some 7, filename := "b.jpg", s3_path := "s3://b/b.jpg",
     thumb_path := none, embedding := none, text_embedding := none, meta := none }]

/-- Two labels with styles for the C5 witness. -/
def c5wLabels : List LabelRow :=
  [{ image_id := 1, room_type := none, room_confidence := none,
     condition_score := none, natural_light_score := none, features := none,
     localization := none, localization_confidence := none,
     style := some "modern", style_confidence := none,
     work_recommendations := none, cost_estimates := none, model_version := none,
     inference_timestamp := none, gradcam_path := none, sample_input_path := none },
   { image_id := 2, room_type := none, room_confidence := none,
     condition_score := none, natural_light_score := none, features := none,
     localization := none, localization_confidence := none,
     style := some "rustic", style_confidence := none,
     work_recommendations := none, cost_estimates := none, model_version := none,
     inference_timestamp := none, gradcam_path := none, sample_input_path := none }]

theorem C5_aggregation_null_iff_and_distributions_sum_one_witness :
    (calculate_property_aggregation c5wImages c5wLabels 7).elim False
      (fun a => a.total_images = 2 ∧ sumSndQ a.style_distribution = 1) := by
  cases hopt : calculate_property_aggregation c5wImages c5wLabels 7 with
  | none => exact absurd hopt (by decide)
  | some a =>
      simp only [Option.elim]
      have h := (C5_aggregation_null_iff_and_distributions_sum_one c5wImages c5wLabels 7).2 a hopt
      constructor
      · rw [h.1]; rfl
      · apply h.2.2.2.1
        rw [h.2.1]
        have hc : countByKey LabelRow.style
            (listing_labels c5wLabels ((listing_images c5wImages 7).map ImageRow.id)) =
            [("modern", 1), ("rustic", 1)] := by decide
        rw [hc]
        simp [distributionOf]

/-- C6 (amended): the two rollup means are computed independently, each over
exactly the non-null scores of its own column; but the return site wraps each
in a float-truthiness test, so a mean that is exactly 0 (and a column with no
non-null scores) is reported as null, and a non-zero mean is rounded to three
decimal places. -/
theorem C6_condition_and_light_means_independent
    (images : List ImageRow) (labels : List LabelRow) (lid : ℕ) (a : AggData)
    (h : calculate_property_aggregation images labels lid = some a) :
    a.overall_condition_score = pyRound3IfTruthy (specMean
      ((listing_labels labels ((listing_images images lid).map ImageRow.id)).filterMap
        LabelRow.condition_score))
  ∧ a.avg_natural_light_score = pyRound3IfTruthy (specMean
      ((listing_labels labels ((listing_images images lid).map ImageRow.id)).filterMap
        LabelRow.natural_light_score)) := by
  by_cases h1 : (listing_images images lid).map ImageRow.id = []
  · simp [calculate_property_aggregation, h1] at h
  · by_cases h2 : listing_labels labels ((listing_images images lid).map ImageRow.id) = []
    · simp [calculate_property_aggregation, h1, h2] at h
    · simp only [calculate_property_aggregation, h1, h2, if_false] at h
      rw [Option.some_inj] at h
      subst h
      exact ⟨rfl, rfl⟩

/-- A listing-7 image for the C6 counterexample. -/
def c6CexImage : ImageRow :=
  { id := 1, listing_id := some 7, filename := "a.jpg", s3_path := "s3://b/a.jpg",
    thumb_path := none, embedding := none, text_embedding := none, meta := none }

/-- Its label: condition score exactly 0 (a valid score), light score 1/2. -/
def c6CexLabel : LabelRow :=
  { image_id := 1, room_type := some "kitchen", room_confidence := none,
    condition_score := some 0, natural_light_score := some (1/2), features := none,
    localization := none, localization_confidence := none,
    style := none, style_confidence := none,
    work_recommendations := none, cost_estimates := none, model_version := none,
    inference_timestamp := none, gradcam_path := none, sample_input_path := none }

/-- C6 counterexample: a label whose only condition score is 0 yields a null
overall_condition_score (the truthiness test at the return site drops the zero
mean), not a mean of 0 — while the light mean 1/2 is reported normally. -/
theorem C6_counterexample_zero_condition_mean_becomes_null :
    (calculate_property_aggregation [c6CexImage] [c6CexLabel] 7).elim False
      (fun a => a.overall_condition_score = none
              ∧ a.avg_natural_light_score = some (1/2)) := by
  have hr : pyRound ((1 : ℚ)/2) 3 = 1/2 := by
    rw [pyRound, show ((1 : ℚ)/2) * (10 : ℚ) ^ 3 = ((500 : ℤ) : ℚ) by norm_num,
      pyRoundInt_intCast]
    norm_num
  cases hopt : calculate_property_aggregation [c6CexImage] [c6CexLabel] 7 with
  | none => exact absurd hopt (by decide)
  | some a =>
      simp only [Option.elim]
      simp only [calculate_property_aggregation] at hopt
      norm_num [listing_images, listing_labels, c6CexImage, c6CexLabel] at hopt
      subst hopt
      constructor
      · show pyRound3IfTruthy (specMean [0]) = none
        norm_num [pyRound3IfTruthy, specMean]
      · show pyRound3IfTruthy (specMean [1/2]) = some (1/2)
        norm_num [pyRound3IfTruthy, specMean, hr]

/-- Three listing-5 images for the C6 witness (the spec's scenario). -/
def c6wImages : List ImageRow :=
  [{ id := 1, listing_id := some 5, filename := "a.jpg", s3_path := "s3://b/a.jpg",
     thumb_path := none, embedding := none, text_embedding := none, meta := none },
   { id := 2, listing_id := some 5, filename := "b.jpg", s3_path := "s3://b/b.jpg",
     thumb_path := none, embedding := none, text_embedding := none, meta := none },
   { id := 3, listing_id := some 5, filename := "c.jpg", s3_path := "s3://b/c.jpg",
     thumb_path := none, embedding := none, text_embedding := none, meta := none }]

/-- Their labels: condition scores 0.9, 0.7, 0.8; only the second label has a
light score, so the two means draw on different label subsets. -/
def c6wLabels : List LabelRow :=
  [{ image_id := 1, room_type := some "kitchen", room_confidence := none,
     condition_score := some (9/10), natural_light_score := none, features := none,
     localization := none, localization_confidence := none,
     style := none, style_confidence := none,
     work_recommendations := none, cost_estimates := none, model_version := none,
     inference_timestamp := none, gradcam_path := none, sample_input_path := none },
   { image_id := 2, room_type := some "kitchen", room_confidence := none,
     condition_score := some (7/10), natural_light_score := some (1/2), features := none,
     localization := none, localization_confidence := none,
     style := none, style_confidence := none,
     work_recommendations := none, cost_estimates := none, model_version := none,
     inference_timestamp := none, gradcam_path := none, sample_input_path := none },
   { image_id := 3, room_type := some "bathroom", room_confidence := none,
     condition_score := some (4/5), natural_light_score := none, features := none,
     localization := none, localization_confidence := none,
     style := none, style_confidence := none,
     work_recommendations := none, cost_estimates := none, model_version := none,
     inference_timestamp := none, gradcam_path := none, sample_input_path := none }]

theorem C6_condition_and_light_means_independent_witness :
    (calculate_property_aggregation c6wImages c6wLabels 5).elim False
      (fun a => a.overall_condition_score = some (4/5)
              ∧ a.avg_natural_light_score = some (1/2)) := by
  have hr8 : pyRound ((4 : ℚ)/5) 3 = 4/5 := by
    rw [pyRound, show ((4 : ℚ)/5) * (10 : ℚ) ^ 3 = ((800 : ℤ) : ℚ) by norm_num,
      pyRoundInt_intCast]
    norm_num
  have hr5 : pyRound ((1 : ℚ)/2) 3 = 1/2 := by
    rw [pyRound, show ((1 : ℚ)/2) * (10 : ℚ) ^ 3 = ((500 : ℤ) : ℚ) by norm_num,
      pyRoundInt_intCast]
    norm_num
  cases hopt : calculate_property_aggregation c6wImages c6wLabels 5 with
  | none => exact absurd hopt (by decide)
  | some a =>
      simp only [Option.elim]
      have h := C6_condition_and_light_means_independent c6wImages c6wLabels 5 a hopt
      have hfc : (listing_labels c6wLabels
          ((listing_images c6wImages 5).map ImageRow.id)).filterMap
          LabelRow.condition_score = [9/10, 7/10, 4/5] := rfl
      have hfl : (listing_labels c6wLabels
          ((listing_images c6wImages 5).map ImageRow.id)).filterMap
          LabelRow.natural_light_score = [1/2] := rfl
      constructor
      · rw [h.1, hfc]
        have hm : specMean [(9 : ℚ)/10, 7/10, 4/5] = some (4/5) := by
          rw [specMean, if_neg (by simp : ¬([(9 : ℚ)/10, 7/10, 4/5] = []))]
          norm_num
        rw [hm]
        norm_num [pyRound3IfTruthy, hr8]
      · rw [h.2, hfl]
        have hm : specMean [(1 : ℚ)/2] = some (1/2) := by
          rw [specMean, if_neg (by simp : ¬([(1 : ℚ)/2] = []))]
          norm_num
        rw [hm]
        norm_num [pyRound3IfTruthy, hr5]

/-- C7 (amended): one call of insert_image_record commits, as a single
transaction, exactly one image row, a label row iff the prediction dict is
non-empty, and an index row iff a text embedding is present; classification
and score fields absent from the payload are stored as null, but the
list-valued fields (feature_tags, work_recommendations, cost_estimates)
default to an EMPTY LIST, not null, and a missing model version defaults to
the sentinel "model_v1". -/
theorem C7_single_commit_and_absent_field_defaults
    (newId : ℕ) (filename s3_path : String) (embedding text_embedding : Option Vec)
    (preds : Preds) (listing_id : Option ℕ) (uploaded_by model_version : Option String)
    (inference_timestamp : Option ℕ) (gradcam_path sample_input_path : Option String)
    (now : ℕ) (c : IngestCommit)
    (hc : insert_image_record newId filename s3_path embedding text_embedding preds
      listing_id uploaded_by model_version inference_timestamp gradcam_path
      sample_input_path now = c) :
    (c.image.id = newId ∧ c.image.filename = filename ∧ c.image.s3_path = s3_path
      ∧ c.image.listing_id = listing_id ∧ c.image.embedding = embedding
      ∧ c.image.text_embedding = text_embedding)
  ∧ (c.label = none ↔ preds.isEmpty = true)
  ∧ (c.index.isSome = text_embedding.isSome)
  ∧ (∀ l, c.label = some l →
        (preds.room_type = none → l.room_type = none ∧ l.room_confidence = none)
      ∧ (preds.condition_score = none → l.condition_score = none)
      ∧ (preds.natural_light_score = none → l.natural_light_score = none)
      ∧ (preds.style = none → l.style = none ∧ l.style_confidence = none)
      ∧ (preds.localization = none → l.localization = none ∧ l.localization_confidence = none)
      ∧ (preds.feature_tags = none → l.features = some [])
      ∧ (preds.work_recommendations = none → l.work_recommendations = some [])
      ∧ (preds.cost_estimates = none → l.cost_estimates = some [])
      ∧ (model_version = none → l.model_version = some "model_v1"))
  ∧ (∀ ix, c.index = some ix →
        ix.type = "image" ∧ ix.ref_id = newId ∧ some ix.vector = text_embedding) := by
  subst hc
  refine ⟨⟨rfl, rfl, rfl, rfl, rfl, rfl⟩, ?_, ?_, ?_, ?_⟩
  · by_cases hp : preds.isEmpty <;> simp [insert_image_record, hp]
  · cases text_embedding <;> simp [insert_image_record]
  · intro l hl
    by_cases hp : preds.isEmpty
    · simp [insert_image_record, hp] at hl
    · simp only [insert_image_record, hp, Bool.false_eq_true, if_false,
        Option.some_inj] at hl
      subst hl
      refine ⟨?_, ?_, ?_, ?_, ?_, ?_, ?_, ?_, ?_⟩ <;> intro hfield <;> simp [hfield]
  · intro ix hix
    cases text_embedding with
    | none => simp [insert_image_record] at hix
    | some t =>
        simp [insert_image_record] at hix
        subst hix
        exact ⟨rfl, rfl, rfl⟩

/-- A non-empty prediction payload with no feature_tags key. -/
def c7Preds : Preds :=
  { room_type := some { label := some "kitchen", confidence := some (93/100) },
    condition_score := none, natural_light_score := none, feature_tags := none,
    localization := none, style := none,
    work_recommendations := none, cost_estimates := none }

/-- C7 counterexample: with feature_tags absent from a non-empty payload, the
stored label row's features column is the empty list `[]`, not null — absent
data is not distinguishable from an empty tag set. -/
theorem C7_counterexample_absent_feature_tags_stored_as_empty_list :
    ((insert_image_record 1 "a.jpg" "s3://b/a.jpg" none none c7Preds none none none
        none none none 0).label.map LabelRow.features) = some (some [])
  ∧ (some (some ([] : List String)) : Option (Option (List String))) ≠ some none := by
  exact ⟨rfl, by decide⟩

theorem C7_single_commit_and_absent_field_defaults_witness :
    ((insert_image_record 1 "a.jpg" "s3://b/a.jpg" none none c7Preds none none none
        none none none 0).label.map LabelRow.condition_score) = some none
  ∧ ((insert_image_record 1 "a.jpg" "s3://b/a.jpg" none none c7Preds none none none
        none none none 0).label.map LabelRow.model_version) = some (some "model_v1") := by
  have h := C7_single_commit_and_absent_field_defaults 1 "a.jpg" "s3://b/a.jpg"
    none none c7Preds none none none none none none 0 _ rfl
  cases hl : (insert_image_record 1 "a.jpg" "s3://b/a.jpg" none none c7Preds none
      none none none none none 0).label with
  | none => exact absurd hl (by decide)
  | some l =>
      have hfields := h.2.2.2.1 l hl
      exact ⟨congrArg some (hfields.2.1 rfl),
        congrArg some ((hfields.2.2.2.2.2.2.2.2) rfl)⟩
